import Mathlib

/-!
Shallow embedding of the butter-lad prototype (src/main.rs), a small Bevy
game: a player tilts "widget" platforms, a sensor-based detector tracks
which widget is current, and a camera follows the player.  Entities are
natural numbers; f32 values are modelled exactly by rationals (all the
constants of the source are exactly representable), and the quaternion
arithmetic of the tilt controller by Mathlib quaternions over the reals.
Systems become pure functions: a Bevy query is a list of matching
components, `Query::get_single` succeeds exactly on a one-element list,
an `EventWriter` is the returned event list, and a system that calls
`unwrap` returns `Option` (`none` = panic).
-/

namespace ButterLad

/-- Bevy entities, modelled as identifiers. -/
abbrev Entity := Nat

/-- 3D vectors with exact rational coordinates (modelling glam Vec3). -/
abbrev Vec3 := ℚ × ℚ × ℚ

/-- glam Vec3::lerp: a + (b - a) * s, componentwise, with no clamping of s. -/
def lerp3 (a b : Vec3) (s : ℚ) : Vec3 :=
  (a.1 + (b.1 - a.1) * s, a.2.1 + (b.2.1 - a.2.1) * s, a.2.2 + (b.2.2 - a.2.2) * s)

/-- Squared Euclidean distance between two vectors. -/
def distSq (a b : Vec3) : ℚ :=
  (a.1 - b.1) ^ 2 + (a.2.1 - b.2.1) ^ 2 + (a.2.2 - b.2.2) ^ 2

/-- Bevy Query::get_single: succeeds exactly when the query matched one entity. -/
def getSingle {α : Type} : List α → Option α
  | [a] => some a
  | _ => none

/-- The PlayerAction enum of the source. -/
inductive PlayerAction : Type
  | Tilt
  | CameraPan
  | Jump
  | Spin
deriving DecidableEq

/-- A leafwing InputMap, recording which actions carry a dual-axis mapping
and which a button mapping. -/
structure InputMap where
  dualAxisActions : List PlayerAction
  buttonActions : List PlayerAction
deriving DecidableEq

namespace InputListenerBundle

/-- InputListenerBundle::input_map of the source: CameraPan and Tilt are
mapped as dual-axis (right/left stick) actions, Jump and Spin as buttons. -/
def input_map : InputMap :=
  { dualAxisActions := [PlayerAction.CameraPan, PlayerAction.Tilt],
    buttonActions := [PlayerAction.Jump, PlayerAction.Spin] }

end InputListenerBundle

/-- A leafwing ActionState: the input map it was built from, the set of
actions currently reported pressed, and the raw analog value per action.
Modelled from the spec: the input collaborator exposes per-action
pressed/not-pressed state and, for dual-axis actions, a clamped 2D analog
vector; a dual-axis action whose processed vector is zero is reported not
pressed, so absent/zero input shows up here as the action being unpressed. -/
structure ActionState where
  map : InputMap
  pressedActions : List PlayerAction
  value : PlayerAction → ℚ × ℚ

/-- ActionState::pressed. -/
def ActionState.pressed (s : ActionState) (a : PlayerAction) : Bool :=
  decide (a ∈ s.pressedActions)

/-- ActionState::axis_pair: modelled from the spec, the 2D analog vector is
available exactly for the actions the input map registered as dual-axis. -/
def ActionState.axis_pair (s : ActionState) (a : PlayerAction) : Option (ℚ × ℚ) :=
  if a ∈ s.map.dualAxisActions then some (s.value a) else none

/-- Clamp a single axis value to [-1, 1]. -/
def clamp1 (v : ℚ) : ℚ := max (-1) (min 1 v)

/-- ActionState::clamped_axis_pair: the axis pair with both axes clamped to [-1, 1]. -/
def ActionState.clamped_axis_pair (s : ActionState) (a : PlayerAction) : Option (ℚ × ℚ) :=
  (s.axis_pair a).map (fun p => (clamp1 p.1, clamp1 p.2))

/-- The NewWidgetEvent of the source (the spec's WidgetTransitionEvent). -/
structure NewWidgetEvent where
  old_widget : Entity
  new_widget : Entity
deriving DecidableEq

/-- detect_widget_sensors: for the single player entity, scan every
WidgetSensor entity; whenever the physics context reports an intersection
with the player and CurrentWidget holds an entity different from the
sensor entity, emit a NewWidgetEvent(old = CurrentWidget, new = sensor
entity).  The rapier intersection query is a parameter
`intersection_pair : Entity → Entity → Option Bool`, compared against
`some true` exactly as the source does.  With zero (or several) player
entities the query's get_single fails and no events are emitted. -/
def detect_widget_sensors (current_widget : Option Entity) (player_query : List Entity)
    (widget_query : List Entity) (intersection_pair : Entity → Entity → Option Bool) :
    List NewWidgetEvent :=
  match getSingle player_query with
  | none => []
  | some player_entity =>
    widget_query.filterMap (fun widget_sensor_entity =>
      if intersection_pair player_entity widget_sensor_entity = some true then
        match current_widget with
        | some old_entity =>
          if old_entity ≠ widget_sensor_entity then
            some { old_widget := old_entity, new_widget := widget_sensor_entity }
          else none
        | none => none
      else none)

/-- The OutlineVolume highlight component: visibility, rgba colour, width. -/
structure OutlineVolume where
  visible : Bool
  colour : ℚ × ℚ × ℚ × ℚ
  width : ℚ
deriving DecidableEq

/-- The outline inserted by update_current_widget: visible, green rgba(0,1,0,1), width 10. -/
def transitionOutline : OutlineVolume :=
  { visible := true, colour := (0, 1, 0, 1), width := 10 }

/-- The outline given to the first widget in setup: visible, green, width 15. -/
def setupOutline : OutlineVolume :=
  { visible := true, colour := (0, 1, 0, 1), width := 15 }

/-- The state touched by update_current_widget: the CurrentWidget resource
and, per entity, its optional outline component. -/
structure MachineState where
  current_widget : Option Entity
  highlight : Entity → Option OutlineVolume

/-- One iteration of update_current_widget's event loop: remove the outline
from old_widget, insert the fixed transition outline on new_widget (in this
order, so if the two coincide the insert wins), and store the new widget in
CurrentWidget. -/
def applyEvent (s : MachineState) (e : NewWidgetEvent) : MachineState :=
  { current_widget := some e.new_widget,
    highlight := fun x =>
      if x = e.new_widget then some transitionOutline
      else if x = e.old_widget then none
      else s.highlight x }

/-- update_current_widget: drain the NewWidgetEvent queue in emission order,
applying the transition action for each event. -/
def update_current_widget (s : MachineState) (events : List NewWidgetEvent) : MachineState :=
  events.foldl applyEvent s

/-- The entities spawned by setup, with identifiers in spawn order: the
camera, the player, the first widget and its sensor child, the second
widget and its sensor child.  CurrentWidget is inserted as
Some(first widget); the sensor list records each WidgetSensor's
back-reference to its owning widget; only the first widget gets an
OutlineBundle (width 15). -/
structure SetupWorld where
  camera : Entity
  player : Entity
  w1 : Entity
  s1 : Entity
  w2 : Entity
  s2 : Entity
  current_widget : Option Entity
  widgets : List Entity
  sensors : List (Entity × Entity)
  highlight : Entity → Option OutlineVolume

/-- setup of the source, with entity identifiers assigned in spawn order. -/
def setup : SetupWorld :=
  { camera := 0, player := 1, w1 := 2, s1 := 3, w2 := 4, s2 := 5,
    current_widget := some 2,
    widgets := [2, 4],
    sensors := [(3, 2), (5, 4)],
    highlight := fun e => if e = 2 then some setupOutline else none }

/-- The spooky_camera PrimaryCamera, modelled from the spec: an orbiting
camera with adjustable yaw/pitch angles and a look-at target field. -/
structure PrimaryCamera where
  x_angle : ℚ
  y_angle : ℚ
  target : Vec3
deriving DecidableEq

/-- Modelled from the spec: the camera collaborator's pitch adjustment,
applied incrementally. -/
def PrimaryCamera.adjust_x_angle (c : PrimaryCamera) (d : ℚ) : PrimaryCamera :=
  { c with x_angle := c.x_angle + d }

/-- Modelled from the spec: the camera collaborator's yaw adjustment,
applied incrementally. -/
def PrimaryCamera.adjust_y_angle (c : PrimaryCamera) (d : ℚ) : PrimaryCamera :=
  { c with y_angle := c.y_angle + d }

/-- rotate_camera: with a single camera and a single action state, when
CameraPan is pressed, unwrap its axis pair (none = panic) and adjust the
camera angles by 90 * panY * dt (pitch) and -(180 * panX * dt) (yaw),
each skipped when the corresponding change is zero. -/
def rotate_camera (camera_query : List PrimaryCamera) (player_query : List ActionState)
    (dt : ℚ) : Option (List PrimaryCamera) :=
  match getSingle camera_query with
  | none => some camera_query
  | some camera =>
    match getSingle player_query with
    | none => some camera_query
    | some action =>
      if action.pressed PlayerAction.CameraPan = true then
        match action.axis_pair PlayerAction.CameraPan with
        | none => none
        | some camera_pan_vector =>
          let y_rot_change : ℚ :=
            if camera_pan_vector.1 ≠ 0 then 180 * camera_pan_vector.1 * dt else 0
          let x_rot_change : ℚ :=
            if camera_pan_vector.2 ≠ 0 then 90 * camera_pan_vector.2 * dt else 0
          let c1 := if x_rot_change ≠ 0 then camera.adjust_x_angle x_rot_change else camera
          let c2 := if y_rot_change ≠ 0 then c1.adjust_y_angle (-y_rot_change) else c1
          some [c2]
      else some camera_query

/-- set_camera_target: with a single camera and a single player transform,
set the camera's look-at target to target.lerp(player translation, dt * 20);
the interpolation factor dt * 20 is passed to lerp unclamped, exactly as
the source does. -/
def set_camera_target (dt : ℚ) (camera_query : List PrimaryCamera)
    (player_query : List Vec3) : List PrimaryCamera :=
  match getSingle camera_query with
  | none => camera_query
  | some camera =>
    match getSingle player_query with
    | none => camera_query
    | some translation =>
      [{ camera with target := lerp3 camera.target translation (dt * 20) }]

/-- The camera-follow update as the spec words it, for comparison with
set_camera_target: identical except that the interpolation factor is
clamped, target = lerp(target, playerPosition, min(1, 20*dt)). -/
def set_camera_target_spec (dt : ℚ) (camera_query : List PrimaryCamera)
    (player_query : List Vec3) : List PrimaryCamera :=
  match getSingle camera_query with
  | none => camera_query
  | some camera =>
    match getSingle player_query with
    | none => camera_query
    | some translation =>
      [{ camera with target := lerp3 camera.target translation (min 1 (20 * dt)) }]

/-- The spooky_camera CameraFocus resource, modelled from the spec: it
exposes the camera's flattened (horizontal-plane-projected) forward and
right axes, read but never written by the tilt controller. -/
structure CameraFocus where
  forward_flat : ℝ × ℝ × ℝ
  right_flat : ℝ × ℝ × ℝ

/-- Degrees to radians, as f32::to_radians. -/
noncomputable def toRadians (deg : ℝ) : ℝ := deg * (Real.pi / 180)

/-- glam Quat::from_axis_angle: the unit quaternion with real part
cos(angle/2) and imaginary part axis * sin(angle/2). -/
noncomputable def fromAxisAngle (axis : ℝ × ℝ × ℝ) (angle : ℝ) : Quaternion ℝ :=
  ⟨Real.cos (angle / 2), axis.1 * Real.sin (angle / 2),
   axis.2.1 * Real.sin (angle / 2), axis.2.2 * Real.sin (angle / 2)⟩

/-- tilt_controls: with a single action state and an active CurrentWidget,
when Tilt is pressed, unwrap the clamped axis pair (none = panic) and
overwrite the rotation of exactly the level entity equal to the
CurrentWidget value with
from_axis_angle(forward_flat, (7 * x).to_radians()) *
from_axis_angle(right_flat, (7 * -y).to_radians()).
The level query carries each Widget entity with its rotation. -/
noncomputable def tilt_controls (camera_focus : CameraFocus) (current_widget : Option Entity)
    (player_query : List ActionState) (level_query : List (Entity × Quaternion ℝ)) :
    Option (List (Entity × Quaternion ℝ)) :=
  match getSingle player_query with
  | none => some level_query
  | some action =>
    match current_widget with
    | none => some level_query
    | some widget =>
      if action.pressed PlayerAction.Tilt = true then
        match action.clamped_axis_pair PlayerAction.Tilt with
        | none => none
        | some axis_values =>
          let z_rot := axis_values.1
          let x_rot := axis_values.2
          let max_rot : ℚ := 7
          let forward := camera_focus.forward_flat
          let right := camera_focus.right_flat
          let new_rotation :=
            fromAxisAngle forward (toRadians ((max_rot * z_rot : ℚ) : ℝ)) *
            fromAxisAngle right (toRadians ((max_rot * -x_rot : ℚ) : ℝ))
          some (level_query.map (fun et => if et.1 = widget then (et.1, new_rotation) else et))
      else some level_query

/-! Helper lemmas. -/

/-- A successful get_single means the query matched exactly one entity. -/
theorem getSingle_eq_some {α : Type} : ∀ {l : List α} {a : α}, getSingle l = some a → l = [a]
  | [], _, h => Option.noConfusion h
  | [b], _, h => by
      injection h with h2
      rw [h2]
  | _ :: _ :: _, _, h => Option.noConfusion h

/-- Mapping a function that fixes every element of a list is the identity. -/
theorem map_id_of_eq {α : Type} (f : α → α) :
    ∀ l : List α, (∀ a ∈ l, f a = a) → l.map f = l
  | [], _ => rfl
  | a :: l, h => by
      rw [List.map_cons, h a (List.mem_cons_self a l),
        map_id_of_eq f l (fun b hb => h b (List.mem_cons_of_mem a hb))]

/-- Clamping is the identity on values already in [-1, 1]. -/
theorem clamp1_eq_self {v : ℚ} (h : |v| ≤ 1) : clamp1 v = v := by
  rcases abs_le.mp h with ⟨h1, h2⟩
  unfold clamp1
  rw [min_eq_right h2, max_eq_right h1]

/-- The body of the detector's sensor loop, as a filterMap over the sensor
entities, equals a map over the filtered sensor list. -/
theorem detect_filterMap_aux (c p : Entity) (inter : Entity → Entity → Option Bool) :
    ∀ t : List Entity,
      (t.filterMap (fun s =>
        if inter p s = some true then
          if c ≠ s then some ({ old_widget := c, new_widget := s } : NewWidgetEvent) else none
        else none))
      = (t.filter (fun s => decide (inter p s = some true ∧ c ≠ s))).map
          (fun s => { old_widget := c, new_widget := s })
  | [] => rfl
  | s :: t => by
    have ih := detect_filterMap_aux c p inter t
    by_cases h1 : inter p s = some true
    · by_cases h2 : c = s
      · have hc : (if inter p s = some true then
            if c ≠ s then some ({ old_widget := c, new_widget := s } : NewWidgetEvent) else none
          else none) = none := by
          rw [if_pos h1, if_neg (by simp [h2])]
        have hd : decide (inter p s = some true ∧ c ≠ s) = false := by simp [h2]
        rw [List.filterMap_cons, hc, List.filter_cons, hd, ih]
        simp
      · have hc : (if inter p s = some true then
            if c ≠ s then some ({ old_widget := c, new_widget := s } : NewWidgetEvent) else none
          else none) = some { old_widget := c, new_widget := s } := by
          rw [if_pos h1, if_pos h2]
        have hd : decide (inter p s = some true ∧ c ≠ s) = true := by simp [h1, h2]
        rw [List.filterMap_cons, hc, List.filter_cons, hd, ih]
        simp
    · have hc : (if inter p s = some true then
          if c ≠ s then some ({ old_widget := c, new_widget := s } : NewWidgetEvent) else none
        else none) = none := by rw [if_neg h1]
      have hd : decide (inter p s = some true ∧ c ≠ s) = false := by simp [h1]
      rw [List.filterMap_cons, hc, List.filter_cons, hd, ih]
      simp

/-- detect_widget_sensors with a single player and CurrentWidget = some c
is exactly one event per intersecting sensor entity that differs from c,
in query order, each carrying old_widget = c. -/
theorem detect_widget_sensors_as_filter (c p : Entity) (player_query widget_query : List Entity)
    (inter : Entity → Entity → Option Bool) (hp : getSingle player_query = some p) :
    detect_widget_sensors (some c) player_query widget_query inter
      = (widget_query.filter (fun s => decide (inter p s = some true ∧ c ≠ s))).map
          (fun s => { old_widget := c, new_widget := s }) := by
  unfold detect_widget_sensors
  rw [hp]
  exact detect_filterMap_aux c p inter widget_query

/-- Folding the transition action always leaves CurrentWidget populated. -/
theorem foldl_applyEvent_isSome :
    ∀ (events : List NewWidgetEvent) (s : MachineState),
      s.current_widget.isSome = true →
      ((update_current_widget s events).current_widget).isSome = true
  | [], _, h => h
  | e :: t, s, _ => foldl_applyEvent_isSome t (applyEvent s e) rfl

/-! Claim theorems. -/

/-- C6: with zero player entities the detector's get_single fails, so it
emits zero transition events; it reads but never writes CurrentWidget (its
only output is the event list) and performs no panicking operation. -/
theorem detect_widget_sensors_no_player (current_widget : Option Entity)
    (widget_query : List Entity) (inter : Entity → Entity → Option Bool) :
    detect_widget_sensors current_widget [] widget_query inter = [] := rfl

/-- C10: every event the detector emits in one step carries as old_widget
the value CurrentWidget held at the start of the step: the emitted list is
one event (c, s) per intersecting differing sensor s, in enumeration
order, so overlapping sensors give (c, s1), (c, s2), never a chain. -/
theorem detect_events_carry_start_value (c p : Entity)
    (player_query widget_query : List Entity)
    (inter : Entity → Entity → Option Bool) (hp : getSingle player_query = some p) :
    detect_widget_sensors (some c) player_query widget_query inter
      = (widget_query.filter (fun s => decide (inter p s = some true ∧ c ≠ s))).map
          (fun s => { old_widget := c, new_widget := s }) :=
  detect_widget_sensors_as_filter c p player_query widget_query inter hp

/-- The all-pairs intersection oracle used by the C10 witness. -/
def interAll : Entity → Entity → Option Bool := fun _ _ => some true

/-- Witness for C10 at a concrete step: player 1, CurrentWidget 2,
sensors 3 and 4 both intersecting. -/
theorem detect_events_carry_start_value_witness :
    getSingle [(1 : Entity)] = some 1
    ∧ detect_widget_sensors (some 2) [1] [3, 4] interAll
        = (([3, 4] : List Entity).filter (fun s => decide (interAll 1 s = some true ∧ 2 ≠ s))).map
            (fun s => { old_widget := 2, new_widget := s }) :=
  ⟨rfl, detect_events_carry_start_value 2 1 [1] [3, 4] interAll rfl⟩

/-- C1 (amended): the detector is keyed on entity identity: when every
sensor entity whose volume intersects the player equals the entity stored
in CurrentWidget, no event is emitted, and every emitted event carries a
new_widget different from the CurrentWidget value.  (As stated the claim
fails at level load, where CurrentWidget holds the widget entity rather
than its sensor entity; see the counterexample.) -/
theorem detect_no_event_on_current_sensor (c p : Entity)
    (player_query widget_query : List Entity)
    (inter : Entity → Entity → Option Bool) (hp : getSingle player_query = some p) :
    ((detect_widget_sensors (some c) player_query widget_query inter).all
        (fun e => decide (e.new_widget ≠ c)) = true)
    ∧ ((∀ s ∈ widget_query, inter p s = some true → s = c) →
        detect_widget_sensors (some c) player_query widget_query inter = []) := by
  rw [detect_widget_sensors_as_filter c p player_query widget_query inter hp]
  constructor
  · rw [List.all_eq_true]
    intro e he
    rcases List.mem_map.mp he with ⟨s, hs, hes⟩
    rcases List.mem_filter.mp hs with ⟨_, hpred⟩
    rcases of_decide_eq_true hpred with ⟨_, hne⟩
    rw [← hes]
    exact decide_eq_true (fun hcontra => hne hcontra.symm)
  · intro honly
    have hnil : widget_query.filter (fun s => decide (inter p s = some true ∧ c ≠ s)) = [] := by
      rw [List.filter_eq_nil_iff]
      intro s hs hpred
      rcases of_decide_eq_true hpred with ⟨hint, hne⟩
      exact hne (honly s hs hint).symm
    rw [hnil]
    rfl

/-- The intersection oracle where the player (entity 1) overlaps only
sensor entity 3; used by the C1 witness and counterexample. -/
def interOnly3 : Entity → Entity → Option Bool :=
  fun p s => some (decide (p = 1 ∧ s = 3))

/-- Witness for C1 (amended) after a transition: CurrentWidget holds the
sensor entity 3 and the player intersects only sensor 3, so no event. -/
theorem detect_no_event_on_current_sensor_witness :
    getSingle [(1 : Entity)] = some 1
    ∧ detect_widget_sensors (some 3) [1] [3] interOnly3 = [] :=
  ⟨rfl, (detect_no_event_on_current_sensor 3 1 [1] [3] interOnly3 rfl).2 (by decide)⟩

/-- C1 counterexample: at the level-load state produced by setup,
CurrentWidget holds the widget entity (2) while sensors are distinct
entities; the player intersecting only the current widget's own sensor
(entity 3, owned by widget 2) makes the detector emit an event, so the
claim as stated fails on the initial state. -/
theorem detect_emits_on_own_sensor_at_load :
    setup.current_widget = some setup.w1
    ∧ (setup.s1, setup.w1) ∈ setup.sensors
    ∧ ((setup.sensors.map Prod.fst).all
        (fun s => decide (interOnly3 setup.player s = some true → s = setup.s1)) = true)
    ∧ detect_widget_sensors setup.current_widget [setup.player]
        (setup.sensors.map Prod.fst) interOnly3
        = [{ old_widget := setup.w1, new_widget := setup.s1 }]
    ∧ [({ old_widget := setup.w1, new_widget := setup.s1 } : NewWidgetEvent)]
        ≠ [] := by decide

/-- C2 (amended): consuming the events (A, B) then (B, C) in one step, for
pairwise distinct A, B, C, leaves CurrentWidget = C, B without a highlight
(inserted by the first event, removed by the second), C with the fixed
transition highlight — and A without a highlight: the first event removes
A's highlight, so A's highlight state is not unaffected by the batch. -/
theorem update_batch_final_state (s : MachineState) (A B C : Entity)
    (hAB : A ≠ B) (hAC : A ≠ C) (hBC : B ≠ C) :
    (update_current_widget s
        [{ old_widget := A, new_widget := B }, { old_widget := B, new_widget := C }]).current_widget
      = some C
    ∧ (update_current_widget s
        [{ old_widget := A, new_widget := B }, { old_widget := B, new_widget := C }]).highlight B
      = none
    ∧ (update_current_widget s
        [{ old_widget := A, new_widget := B }, { old_widget := B, new_widget := C }]).highlight C
      = some transitionOutline
    ∧ (update_current_widget s
        [{ old_widget := A, new_widget := B }, { old_widget := B, new_widget := C }]).highlight A
      = none := by
  refine ⟨rfl, ?_, ?_, ?_⟩
  · show (applyEvent (applyEvent s { old_widget := A, new_widget := B })
      { old_widget := B, new_widget := C }).highlight B = none
    simp [applyEvent, hBC]
  · show (applyEvent (applyEvent s { old_widget := A, new_widget := B })
      { old_widget := B, new_widget := C }).highlight C = some transitionOutline
    simp [applyEvent]
  · show (applyEvent (applyEvent s { old_widget := A, new_widget := B })
      { old_widget := B, new_widget := C }).highlight A = none
    simp [applyEvent, hAB, hAC]

/-- A machine state with widget 0 current and highlighted, as after level
load; shared by the C2 counterexample and the C8 witness. -/
def stateA : MachineState :=
  { current_widget := some 0,
    highlight := fun e => if e = 0 then some setupOutline else none }

/-- C2 counterexample: starting with A = 0 highlighted, consuming
(0, 1) then (1, 2) removes A's highlight, so A's highlight state is
affected by the batch, contradicting the claim. -/
theorem update_batch_removes_A_highlight :
    stateA.highlight 0 = some setupOutline
    ∧ (update_current_widget stateA
        [{ old_widget := 0, new_widget := 1 }, { old_widget := 1, new_widget := 2 }]).highlight 0
      = none
    ∧ some setupOutline ≠ (none : Option OutlineVolume) := by decide

/-- Witness for C2 (amended) at A, B, C = 0, 1, 2. -/
theorem update_batch_final_state_witness :
    ((0 : Entity) ≠ 1 ∧ (0 : Entity) ≠ 2 ∧ (1 : Entity) ≠ 2)
    ∧ ((update_current_widget stateA
          [{ old_widget := 0, new_widget := 1 }, { old_widget := 1, new_widget := 2 }]).current_widget
        = some 2
      ∧ (update_current_widget stateA
          [{ old_widget := 0, new_widget := 1 }, { old_widget := 1, new_widget := 2 }]).highlight 1
        = none
      ∧ (update_current_widget stateA
          [{ old_widget := 0, new_widget := 1 }, { old_widget := 1, new_widget := 2 }]).highlight 2
        = some transitionOutline
      ∧ (update_current_widget stateA
          [{ old_widget := 0, new_widget := 1 }, { old_widget := 1, new_widget := 2 }]).highlight 0
        = none) :=
  ⟨by decide, update_batch_final_state stateA 0 1 2 (by decide) (by decide) (by decide)⟩

/-- C8 (amended): after level load CurrentWidget is never None: setup
initializes it to Some(first-spawned widget), and each state-machine
mutation stores Some(new_widget), so a populated CurrentWidget stays
populated across any event batch.  (The stored entity is a sensor entity
after a transition, not a widget entity; see the counterexample.) -/
theorem current_widget_never_none :
    setup.current_widget = some setup.w1
    ∧ setup.widgets.head? = some setup.w1
    ∧ ∀ (s : MachineState) (events : List NewWidgetEvent),
        s.current_widget.isSome = true →
        ((update_current_widget s events).current_widget).isSome = true :=
  ⟨rfl, rfl, fun s events h => foldl_applyEvent_isSome events s h⟩

/-- Witness for C8 (amended) at a concrete state and batch. -/
theorem current_widget_never_none_witness :
    stateA.current_widget.isSome = true
    ∧ ((update_current_widget stateA
        [{ old_widget := 0, new_widget := 1 }]).current_widget).isSome = true :=
  ⟨rfl, current_widget_never_none.2.2 stateA [{ old_widget := 0, new_widget := 1 }] rfl⟩

/-- The intersection oracle where the player (entity 1) overlaps only
sensor entity 5 (the second widget's sensor); used by the C8 counterexample. -/
def interOnly5 : Entity → Entity → Option Bool :=
  fun p s => some (decide (p = 1 ∧ s = 5))

/-- C8 counterexample: one detector-then-state-machine step from the setup
state with the player overlapping the second widget's sensor stores the
sensor entity 5 in CurrentWidget, and 5 is not a widget entity, so
CurrentWidget does not always hold a valid widget reference. -/
theorem current_widget_holds_sensor_after_transition :
    (update_current_widget
        { current_widget := setup.current_widget, highlight := setup.highlight }
        (detect_widget_sensors setup.current_widget [setup.player]
          (setup.sensors.map Prod.fst) interOnly5)).current_widget
      = some setup.s2
    ∧ setup.s2 ∉ setup.widgets := by decide

/-- The camera the camera-claim counterexamples and witnesses start from:
angles zero, look-at target at the origin. -/
def cam0 : PrimaryCamera := { x_angle := 0, y_angle := 0, target := (0, 0, 0) }

/-- C3 (amended): with a single camera and a single player, one follow
step sets the camera's look-at target to lerp(old_target, player, 20*dt)
with the interpolation factor unclamped; the claimed min(1, 20*dt) formula
agrees with the code exactly when dt ≤ 1/20. -/
theorem set_camera_target_factor (dt : ℚ) (camera : PrimaryCamera) (p : Vec3) :
    set_camera_target dt [camera] [p]
      = [{ camera with target := lerp3 camera.target p (dt * 20) }]
    ∧ (dt ≤ 1 / 20 →
        set_camera_target dt [camera] [p] = set_camera_target_spec dt [camera] [p]) := by
  constructor
  · rfl
  · intro hdt
    have hL : set_camera_target dt [camera] [p]
        = [{ camera with target := lerp3 camera.target p (dt * 20) }] := rfl
    have hR : set_camera_target_spec dt [camera] [p]
        = [{ camera with target := lerp3 camera.target p (min 1 (20 * dt)) }] := rfl
    rw [hL, hR, min_eq_right (by linarith : 20 * dt ≤ 1), mul_comm]

/-- Witness for C3 (amended) at dt = 1/100 ≤ 1/20. -/
theorem set_camera_target_factor_witness :
    ((1 : ℚ) / 100 ≤ 1 / 20)
    ∧ set_camera_target (1 / 100) [cam0] [((1 : ℚ), 0, 0)]
        = [{ cam0 with target := lerp3 cam0.target ((1 : ℚ), 0, 0) (1 / 100 * 20) }]
    ∧ set_camera_target (1 / 100) [cam0] [((1 : ℚ), 0, 0)]
        = set_camera_target_spec (1 / 100) [cam0] [((1 : ℚ), 0, 0)] :=
  ⟨by norm_num, (set_camera_target_factor (1 / 100) cam0 ((1 : ℚ), 0, 0)).1,
    (set_camera_target_factor (1 / 100) cam0 ((1 : ℚ), 0, 0)).2 (by norm_num)⟩

/-- C3 counterexample: at dt = 1/10 the code's factor is 2, not
min(1, 2) = 1: starting with the target at the origin and the player at
(1,0,0), the code moves the target to (2,0,0) while the claimed clamped
formula yields (1,0,0). -/
theorem set_camera_target_unclamped_cex :
    set_camera_target (1 / 10) [cam0] [((1 : ℚ), 0, 0)]
      = [{ cam0 with target := ((2 : ℚ), 0, 0) }]
    ∧ set_camera_target_spec (1 / 10) [cam0] [((1 : ℚ), 0, 0)]
      = [{ cam0 with target := ((1 : ℚ), 0, 0) }]
    ∧ ({ cam0 with target := ((2 : ℚ), 0, 0) } : PrimaryCamera)
      ≠ { cam0 with target := ((1 : ℚ), 0, 0) } := by
  refine ⟨?_, ?_, ?_⟩
  · have hL : set_camera_target (1 / 10) [cam0] [((1 : ℚ), 0, 0)]
        = [{ cam0 with target := lerp3 cam0.target ((1 : ℚ), 0, 0) (1 / 10 * 20) }] := rfl
    rw [hL]
    norm_num [lerp3, cam0, Prod.ext_iff]
  · have hR : set_camera_target_spec (1 / 10) [cam0] [((1 : ℚ), 0, 0)]
        = [{ cam0 with target := lerp3 cam0.target ((1 : ℚ), 0, 0) (min 1 (20 * (1 / 10))) }] := rfl
    rw [hR]
    norm_num [lerp3, cam0, Prod.ext_iff]
  · norm_num [cam0, Prod.ext_iff]

/-- Squared distances are nonnegative. -/
theorem distSq_nonneg (a b : Vec3) : 0 ≤ distSq a b := by
  unfold distSq
  positivity

/-- C9 (amended): one follow step scales the offset of the target from a
stationary player by exactly (1 - 20*dt), componentwise, so the new
squared distance is (1 - 20*dt)^2 times the old one — that is, the new
distance is D * |1 - 20*dt|, not D * max(0, 1 - 20*dt) in general.  For
0 ≤ dt ≤ 1/20 the factor lies in [0, 1]: the claimed max-formula is then
correct and the target never overshoots the player (same-signed, shrunk
offset; distance does not increase). -/
theorem camera_follow_decay (dt : ℚ) (camera : PrimaryCamera) (p : Vec3) :
    set_camera_target dt [camera] [p]
      = [{ camera with target := lerp3 camera.target p (dt * 20) }]
    ∧ distSq (lerp3 camera.target p (dt * 20)) p
      = (1 - 20 * dt) ^ 2 * distSq camera.target p
    ∧ ((lerp3 camera.target p (dt * 20)).1 - p.1
        = (1 - 20 * dt) * (camera.target.1 - p.1)
      ∧ (lerp3 camera.target p (dt * 20)).2.1 - p.2.1
        = (1 - 20 * dt) * (camera.target.2.1 - p.2.1)
      ∧ (lerp3 camera.target p (dt * 20)).2.2 - p.2.2
        = (1 - 20 * dt) * (camera.target.2.2 - p.2.2))
    ∧ (0 ≤ dt → dt ≤ 1 / 20 →
        max 0 (1 - 20 * dt) = 1 - 20 * dt
        ∧ 0 ≤ 1 - 20 * dt ∧ 1 - 20 * dt ≤ 1
        ∧ distSq (lerp3 camera.target p (dt * 20)) p ≤ distSq camera.target p) := by
  refine ⟨rfl, ?_, ⟨?_, ?_, ?_⟩, ?_⟩
  · unfold lerp3 distSq
    ring
  · unfold lerp3
    ring
  · unfold lerp3
    ring
  · unfold lerp3
    ring
  · intro h0 h1
    have hfac : 0 ≤ 1 - 20 * dt := by linarith
    refine ⟨max_eq_right hfac, hfac, by linarith, ?_⟩
    have hsq : distSq (lerp3 camera.target p (dt * 20)) p
        = (1 - 20 * dt) ^ 2 * distSq camera.target p := by
      unfold lerp3 distSq
      ring
    rw [hsq]
    have hD := distSq_nonneg camera.target p
    have husq : (1 - 20 * dt) ^ 2 ≤ 1 := by nlinarith
    exact mul_le_of_le_one_left hD husq

/-- Witness for C9 (amended) at dt = 1/100, target (0,0,0), player (1,0,0). -/
theorem camera_follow_decay_witness :
    ((0 : ℚ) ≤ 1 / 100 ∧ (1 : ℚ) / 100 ≤ 1 / 20)
    ∧ distSq (lerp3 cam0.target ((1 : ℚ), 0, 0) (1 / 100 * 20)) ((1 : ℚ), 0, 0)
      = (1 - 20 * (1 / 100)) ^ 2 * distSq cam0.target ((1 : ℚ), 0, 0)
    ∧ distSq (lerp3 cam0.target ((1 : ℚ), 0, 0) (1 / 100 * 20)) ((1 : ℚ), 0, 0)
      ≤ distSq cam0.target ((1 : ℚ), 0, 0) :=
  ⟨⟨by norm_num, by norm_num⟩,
    (camera_follow_decay (1 / 100) cam0 ((1 : ℚ), 0, 0)).2.1,
    ((camera_follow_decay (1 / 100) cam0 ((1 : ℚ), 0, 0)).2.2.2
      (by norm_num) (by norm_num)).2.2.2⟩

/-- C9 counterexample: at dt = 1/10 with the target at distance 1 from the
player, the code leaves the new target at squared distance 1 (it overshot
to the far side), while the claimed D * max(0, 1 - 20*dt) is 0. -/
theorem camera_follow_distance_cex :
    set_camera_target (1 / 10) [cam0] [((1 : ℚ), 0, 0)]
      = [{ cam0 with target := ((2 : ℚ), 0, 0) }]
    ∧ distSq ((2 : ℚ), 0, 0) ((1 : ℚ), 0, 0) = 1
    ∧ (max 0 (1 - 20 * ((1 : ℚ) / 10))) ^ 2 * distSq cam0.target ((1 : ℚ), 0, 0) = 0
    ∧ (1 : ℚ) ≠ 0 := by
  refine ⟨?_, ?_, ?_, ?_⟩
  · have hL : set_camera_target (1 / 10) [cam0] [((1 : ℚ), 0, 0)]
        = [{ cam0 with target := lerp3 cam0.target ((1 : ℚ), 0, 0) (1 / 10 * 20) }] := rfl
    rw [hL]
    norm_num [lerp3, cam0, Prod.ext_iff]
  · norm_num [distSq]
  · norm_num [distSq, cam0]
  · norm_num

/-- C4: with a single action state, an active widget w, Tilt pressed and
tilt vector (x, y) with both axes in [-1, 1], tilt_controls overwrites
exactly w's rotation with the composition
from_axis_angle(forward_flat, to_radians(7 * x)) *
from_axis_angle(right_flat, to_radians(7 * -y)), whose degree arguments
are each at most 7 in magnitude; with the tilt action unpressed (the input
collaborator reports a zero tilt vector as unpressed) or the player absent
the level rotations are unchanged. -/
theorem tilt_controls_sets_composition (cf : CameraFocus) (w : Entity)
    (a b : ActionState) (level : List (Entity × Quaternion ℝ)) (x y : ℚ)
    (hx : |x| ≤ 1) (hy : |y| ≤ 1)
    (hval : a.value PlayerAction.Tilt = (x, y))
    (hpress : a.pressed PlayerAction.Tilt = true)
    (hmap : PlayerAction.Tilt ∈ a.map.dualAxisActions)
    (hb : b.pressed PlayerAction.Tilt = false) :
    tilt_controls cf (some w) [a] level
      = some (level.map (fun et =>
          if et.1 = w then
            (et.1,
              fromAxisAngle cf.forward_flat (toRadians ((7 * x : ℚ) : ℝ)) *
              fromAxisAngle cf.right_flat (toRadians ((7 * -y : ℚ) : ℝ)))
          else et))
    ∧ |(7 : ℚ) * x| ≤ 7 ∧ |(7 : ℚ) * -y| ≤ 7
    ∧ tilt_controls cf (some w) [b] level = some level
    ∧ tilt_controls cf (some w) [] level = some level := by
  refine ⟨?_, ?_, ?_, ?_, rfl⟩
  · have hpair : a.clamped_axis_pair PlayerAction.Tilt = some (x, y) := by
      unfold ActionState.clamped_axis_pair ActionState.axis_pair
      rw [if_pos hmap, hval]
      simp [clamp1_eq_self hx, clamp1_eq_self hy]
    show (if a.pressed PlayerAction.Tilt = true then
        match a.clamped_axis_pair PlayerAction.Tilt with
        | none => none
        | some axis_values =>
          some (level.map (fun et =>
            if et.1 = w then
              (et.1,
                fromAxisAngle cf.forward_flat (toRadians ((7 * axis_values.1 : ℚ) : ℝ)) *
                fromAxisAngle cf.right_flat (toRadians ((7 * -axis_values.2 : ℚ) : ℝ)))
            else et))
      else some level) = _
    rw [if_pos hpress, hpair]
  · rw [abs_mul]
    have h7 : |(7 : ℚ)| = 7 := by norm_num
    rw [h7]
    nlinarith [abs_nonneg x]
  · rw [abs_mul, abs_neg]
    have h7 : |(7 : ℚ)| = 7 := by norm_num
    rw [h7]
    nlinarith [abs_nonneg y]
  · show (if b.pressed PlayerAction.Tilt = true then
        match b.clamped_axis_pair PlayerAction.Tilt with
        | none => none
        | some axis_values =>
          some (level.map (fun et =>
            if et.1 = w then
              (et.1,
                fromAxisAngle cf.forward_flat (toRadians ((7 * axis_values.1 : ℚ) : ℝ)) *
                fromAxisAngle cf.right_flat (toRadians ((7 * -axis_values.2 : ℚ) : ℝ)))
            else et))
      else some level) = some level
    rw [if_neg (by rw [hb]; exact Bool.false_ne_true)]

/-- A camera focus with concrete flattened axes, for witnesses. -/
noncomputable def cfEx : CameraFocus :=
  { forward_flat := (0, 0, 1), right_flat := (1, 0, 0) }

/-- An action state over the source's input map with Tilt pressed at full
deflection (1, 0). -/
def tiltAction : ActionState :=
  { map := InputListenerBundle.input_map,
    pressedActions := [PlayerAction.Tilt],
    value := fun _ => (1, 0) }

/-- An action state over the source's input map with nothing pressed. -/
def idleAction : ActionState :=
  { map := InputListenerBundle.input_map,
    pressedActions := [],
    value := fun _ => (0, 0) }

/-- A one-widget level: entity 2 with the identity rotation. -/
noncomputable def levelEx : List (Entity × Quaternion ℝ) := [(2, 1)]

/-- Witness for C4 at x = 1, y = 0 on the concrete one-widget level. -/
theorem tilt_controls_sets_composition_witness :
    (|(1 : ℚ)| ≤ 1 ∧ |(0 : ℚ)| ≤ 1
      ∧ tiltAction.value PlayerAction.Tilt = (1, 0)
      ∧ tiltAction.pressed PlayerAction.Tilt = true
      ∧ PlayerAction.Tilt ∈ tiltAction.map.dualAxisActions
      ∧ idleAction.pressed PlayerAction.Tilt = false)
    ∧ (tilt_controls cfEx (some 2) [tiltAction] levelEx
        = some (levelEx.map (fun et =>
            if et.1 = 2 then
              (et.1,
                fromAxisAngle cfEx.forward_flat (toRadians ((7 * 1 : ℚ) : ℝ)) *
                fromAxisAngle cfEx.right_flat (toRadians ((7 * -0 : ℚ) : ℝ)))
            else et))
      ∧ |(7 : ℚ) * 1| ≤ 7 ∧ |(7 : ℚ) * -0| ≤ 7
      ∧ tilt_controls cfEx (some 2) [idleAction] levelEx = some levelEx
      ∧ tilt_controls cfEx (some 2) [] levelEx = some levelEx) :=
  ⟨⟨by norm_num, by norm_num, rfl, rfl, by decide, rfl⟩,
    tilt_controls_sets_composition cfEx 2 tiltAction idleAction levelEx 1 0
      (by norm_num) (by norm_num) rfl rfl (by decide) rfl⟩

/-- C5: a successful tilt_controls step mutates at most the rotation of
the entity stored in CurrentWidget: the level keeps its length, every
entry whose entity differs from the CurrentWidget value is unchanged, and
the step is the identity when no widget is active, when the stored entity
has no Widget component (as when CurrentWidget holds a sensor entity after
a transition), or when the tilt action is not pressed. -/
theorem tilt_controls_touches_only_current (cf : CameraFocus) (cw : Option Entity)
    (actions : List ActionState) (level res : List (Entity × Quaternion ℝ))
    (hres : tilt_controls cf cw actions level = some res) :
    res.length = level.length
    ∧ (∀ w, cw = some w → ∀ i et, level.get? i = some et → et.1 ≠ w → res.get? i = some et)
    ∧ (cw = none → res = level)
    ∧ (∀ w, cw = some w → (∀ et ∈ level, et.1 ≠ w) → res = level)
    ∧ (∀ b, actions = [b] → b.pressed PlayerAction.Tilt = false → res = level) := by
  unfold tilt_controls at hres
  cases hga : getSingle actions with
  | none =>
    simp only [hga] at hres
    have hlev : level = res := by
      injection hres
    subst hlev
    exact ⟨rfl, fun w _ i et hget _ => hget, fun _ => rfl, fun w _ _ => rfl,
      fun b hb _ => absurd hga (by rw [hb]; exact fun h => Option.noConfusion h)⟩
  | some a =>
    simp only [hga] at hres
    cases cw with
    | none =>
      have hlev : level = res := by
        injection hres
      subst hlev
      exact ⟨rfl, fun w hw => Option.noConfusion hw, fun _ => rfl,
        fun w hw => Option.noConfusion hw, fun _ _ _ => rfl⟩
    | some w =>
      by_cases hp : a.pressed PlayerAction.Tilt = true
      · simp only [if_pos hp] at hres
        cases hap : a.clamped_axis_pair PlayerAction.Tilt with
        | none =>
          rw [hap] at hres
          exact Option.noConfusion hres
        | some axis_values =>
          simp only [hap] at hres
          have hmap2 : level.map (fun et =>
              if et.1 = w then
                (et.1,
                  fromAxisAngle cf.forward_flat (toRadians ((7 * axis_values.1 : ℚ) : ℝ)) *
                  fromAxisAngle cf.right_flat (toRadians ((7 * -axis_values.2 : ℚ) : ℝ)))
              else et) = res := by
            injection hres
          refine ⟨?_, ?_, ?_, ?_, ?_⟩
          · rw [← hmap2, List.length_map]
          · intro w2 hw2 i et hget hne
            injection hw2 with hw2
            subst hw2
            rw [← hmap2, List.get?_map, hget]
            simp [hne]
          · intro hcontra
            exact Option.noConfusion hcontra
          · intro w2 hw2 hall
            injection hw2 with hw2
            subst hw2
            rw [← hmap2]
            exact map_id_of_eq _ level (fun et het => by simp [hall et het])
          · intro b hb hbp
            rw [hb] at hga
            have hba : a = b := by
              injection hga with hga2
              exact hga2.symm
            rw [hba, hbp] at hp
            exact absurd hp Bool.false_ne_true
      · simp only [if_neg hp] at hres
        have hlev : level = res := by
          injection hres
        subst hlev
        exact ⟨rfl, fun w2 _ i et hget _ => hget, fun hcontra => Option.noConfusion hcontra,
          fun w2 _ _ => rfl, fun _ _ _ => rfl⟩

/-- Witness for C5: CurrentWidget holds entity 9, absent from the level
(as for a sensor entity), so the level is untouched. -/
theorem tilt_controls_touches_only_current_witness :
    tilt_controls cfEx (some 9) [tiltAction] levelEx = some levelEx
    ∧ levelEx.length = levelEx.length
    ∧ levelEx.get? 0 = some (2, 1) := by
  have h := tilt_controls_touches_only_current cfEx (some 9) [tiltAction] levelEx levelEx rfl
  exact ⟨rfl, h.1, h.2.1 9 rfl 0 (2, 1) rfl (by decide)⟩

/-- C7: per-step systems are total.  The detector, the state machine and
the follow update are total functions by construction, and the two
Option-valued systems never hit their unwrap panic when every action state
was built from the source's input map, because that map registers Tilt and
CameraPan as dual-axis actions, making axis_pair/clamped_axis_pair
available; every fallible get_single lookup (absent or duplicated player,
absent camera) yields the unchanged input, a silent no-op. -/
theorem per_step_systems_total (cf : CameraFocus) (cw : Option Entity)
    (actions : List ActionState) (level : List (Entity × Quaternion ℝ))
    (cams : List PrimaryCamera) (dt : ℚ)
    (h : ∀ a ∈ actions, a.map = InputListenerBundle.input_map) :
    (tilt_controls cf cw actions level).isSome = true
    ∧ (rotate_camera cams actions dt).isSome = true
    ∧ tilt_controls cf cw [] level = some level
    ∧ rotate_camera cams [] dt = some cams
    ∧ set_camera_target dt cams [] = cams := by
  refine ⟨?_, ?_, rfl, ?_, ?_⟩
  · unfold tilt_controls
    cases hga : getSingle actions with
    | none => rfl
    | some a =>
      have ha : a ∈ actions := by
        rw [getSingle_eq_some hga]
        exact List.mem_singleton.mpr rfl
      have hmap : PlayerAction.Tilt ∈ a.map.dualAxisActions := by
        rw [h a ha]
        decide
      cases cw with
      | none => rfl
      | some w =>
        simp only []
        by_cases hp : a.pressed PlayerAction.Tilt = true
        · rw [if_pos hp]
          have hpair : a.clamped_axis_pair PlayerAction.Tilt
              = some (clamp1 (a.value PlayerAction.Tilt).1,
                  clamp1 (a.value PlayerAction.Tilt).2) := by
            unfold ActionState.clamped_axis_pair ActionState.axis_pair
            rw [if_pos hmap]
            rfl
          rw [hpair]
          rfl
        · rw [if_neg hp]
          rfl
  · unfold rotate_camera
    cases hgc : getSingle cams with
    | none => rfl
    | some cam =>
      cases hga : getSingle actions with
      | none => rfl
      | some a =>
        have ha : a ∈ actions := by
          rw [getSingle_eq_some hga]
          exact List.mem_singleton.mpr rfl
        have hmap : PlayerAction.CameraPan ∈ a.map.dualAxisActions := by
          rw [h a ha]
          decide
        simp only []
        by_cases hp : a.pressed PlayerAction.CameraPan = true
        · rw [if_pos hp]
          have hpair : a.axis_pair PlayerAction.CameraPan
              = some (a.value PlayerAction.CameraPan) := by
            unfold ActionState.axis_pair
            rw [if_pos hmap]
          rw [hpair]
          rfl
        · rw [if_neg hp]
          rfl
  · unfold rotate_camera
    cases hgc : getSingle cams with
    | none => rfl
    | some cam => rfl
  · unfold set_camera_target
    cases hgc : getSingle cams with
    | none => rfl
    | some cam => rfl

/-- Witness for C7 on a concrete world with the source's input map. -/
theorem per_step_systems_total_witness :
    tiltAction.map = InputListenerBundle.input_map
    ∧ (tilt_controls cfEx (some 2) [tiltAction] levelEx).isSome = true
    ∧ (rotate_camera [cam0] [tiltAction] (1 / 60)).isSome = true :=
  ⟨rfl,
    (per_step_systems_total cfEx (some 2) [tiltAction] levelEx [cam0] (1 / 60)
      (fun a ha => by
        have h2 := List.mem_singleton.mp ha
        subst h2
        rfl)).1,
    (per_step_systems_total cfEx (some 2) [tiltAction] levelEx [cam0] (1 / 60)
      (fun a ha => by
        have h2 := List.mem_singleton.mp ha
        subst h2
        rfl)).2.1⟩

end ButterLad
